import Mathlib

/-
Verification of the concurrent sampling core of a PPK2 power-profiler wrapper
(src/src/power_profiler.py).  The Python class PowerProfiler keeps a growable
list of integer current samples (microamperes), a reentrant lock used as a
pause/resume gate for a background polling thread, start/stop timestamps, and
a device handle.  We embed the object state as a record, each controller
operation as the sequence of atomic effects the Python method performs, and the
background loop iteration as a step that only appends when the controller does
not hold the gate.  Timestamps and voltages are modelled with rationals,
Python exceptions with an explicit error type.
-/

namespace PowerProfiler

/-- Kinds of Python exceptions the orchestration code can raise. -/
inductive PyError
  | typeError
  | attributeError
  | valueError
  | driverError
  | initError
  deriving DecidableEq, Repr

/-- The attributes of a PowerProfiler instance that the claims are about.
`lockCount` is the controller thread recursion depth on `measure_lock`
(the reentrant gate); the background thread can acquire the gate only when
this count is zero.  `ppk2` records whether the `self.ppk2` attribute is
present and non-None (teardown executes `del self.ppk2`).  `filename` records
whether a CSV sink was configured, `measurement_thread` whether the thread
attribute is set. -/
structure ProfilerState where
  measuring : Bool
  current_measurements : List ℤ
  measurement_start_time : Option ℚ
  measurement_stop_time : Option ℚ
  lockCount : ℕ
  stopFlag : Bool
  ppk2 : Bool
  source_voltage_mV : ℚ
  filename : Bool
  measurement_thread : Bool
  deriving DecidableEq, Repr

/-- One atomic effect performed by a controller method while it runs.
`acquireGate`/`releaseGate` are `measure_lock.acquire()`/`release()` by the
controller (including the implicit ones of a `with` block); `hwStart`/`hwStop`
are the driver commands `self.ppk2.start_measuring()`/`stop_measuring()`;
`writeCsv` is `write_csv_rows` (no effect on the object state). -/
inductive MicroAction
  | acquireGate
  | releaseGate
  | resetBuffer
  | setMeasuring (b : Bool)
  | hwStart
  | hwStop
  | recordStartTime (t : ℚ)
  | recordStopTime (t : ℚ)
  | writeCsv
  deriving DecidableEq, Repr

/-- Effect of one atomic action on the object state.  Driver commands and the
CSV write do not touch the object state. -/
def applyAction (s : ProfilerState) : MicroAction → ProfilerState
  | .acquireGate => { s with lockCount := s.lockCount + 1 }
  | .releaseGate => { s with lockCount := s.lockCount - 1 }
  | .resetBuffer => { s with current_measurements := [] }
  | .setMeasuring b => { s with measuring := b }
  | .hwStart => s
  | .hwStop => s
  | .recordStartTime t => { s with measurement_start_time := some t }
  | .recordStopTime t => { s with measurement_stop_time := some t }
  | .writeCsv => s

/-- The atomic effects of `start_measuring`, in the order the Python source
performs them: enter the `with` block (acquire), then, only if not already
measuring: reset the buffer, release one level, set the measuring flag, send
the hardware start command, record the start time; finally the `with` block
exit releases one level.  `t` is the value `time.time()` returns. -/
def start_measuring_actions (s : ProfilerState) (t : ℚ) : List MicroAction :=
  MicroAction.acquireGate ::
    ((if s.measuring then [] else
      [MicroAction.resetBuffer, MicroAction.releaseGate,
       MicroAction.setMeasuring true, MicroAction.hwStart,
       MicroAction.recordStartTime t]) ++ [MicroAction.releaseGate])

/-- `start_measuring` as a state transformer: fold the atomic effects. -/
def start_measuring (s : ProfilerState) (t : ℚ) : ProfilerState :=
  List.foldl applyAction s (start_measuring_actions s t)

/-- The atomic effects of `stop_measuring`, in source order: enter the `with`
block (acquire), clear the measuring flag, acquire one more level (the pause),
record the stop time, send the hardware stop command, write the CSV rows when
a filename was configured, and release one level at `with` exit. -/
def stop_measuring_actions (s : ProfilerState) (t : ℚ) : List MicroAction :=
  [MicroAction.acquireGate, MicroAction.setMeasuring false,
   MicroAction.acquireGate, MicroAction.recordStopTime t, MicroAction.hwStop]
  ++ (if s.filename then [MicroAction.writeCsv] else [])
  ++ [MicroAction.releaseGate]

/-- `stop_measuring` as a state transformer. -/
def stop_measuring (s : ProfilerState) (t : ℚ) : ProfilerState :=
  List.foldl applyAction s (stop_measuring_actions s t)

/-- One iteration of `measurement_loop` as seen by the object state: if the
stop event is set the loop exits without appending; otherwise the thread
acquires the gate, which succeeds only when the controller holds no level
(`lockCount = 0`), appends the decoded samples, and releases.  A blocked or
skipped iteration leaves the state unchanged.  `samples` is what
`get_samples(read_data)` decoded; an empty poll corresponds to `samples = []`. -/
def measurement_loop_iter (s : ProfilerState) (samples : List ℤ) : ProfilerState :=
  if s.stopFlag then s
  else if s.lockCount = 0 then
    { s with current_measurements := s.current_measurements ++ samples }
  else s

/-- `get_min_current_mA`: `min(self.current_measurements) / 1000`.  Python
`min` raises ValueError on an empty sequence, modelled as `none`. -/
def get_min_current_mA (samples : List ℤ) : Option ℚ :=
  match samples.min? with
  | some m => some ((m : ℚ) / 1000)
  | none => none

/-- `get_max_current_mA`: `max(self.current_measurements) / 1000`; Python
`max` raises ValueError on an empty sequence, modelled as `none`. -/
def get_max_current_mA (samples : List ℤ) : Option ℚ :=
  match samples.max? with
  | some m => some ((m : ℚ) / 1000)
  | none => none

/-- `get_num_measurements`: length of the buffer. -/
def get_num_measurements (samples : List ℤ) : ℕ :=
  samples.length

/-- `get_average_current_mA`: returns 0 when the buffer is empty, otherwise
`(sum(buffer) / len(buffer)) / 1000`. -/
def get_average_current_mA (samples : List ℤ) : ℚ :=
  if samples.length = 0 then 0
  else ((samples.sum : ℚ) / samples.length) / 1000

/-- `get_measurement_duration_s`: `stop_time - start_time`.  When either
attribute is still None the subtraction raises TypeError. -/
def get_measurement_duration_s (s : ProfilerState) : Except PyError ℚ :=
  match s.measurement_stop_time, s.measurement_start_time with
  | some b, some a => Except.ok (b - a)
  | _, _ => Except.error PyError.typeError

/-- The intermediate value `average_power_mW` computed inside
`get_average_power_consumption_mWh`: `(source_voltage_mV / 1000) *
average_current_mA`. -/
def average_power_mW (s : ProfilerState) : ℚ :=
  (s.source_voltage_mV / 1000) * get_average_current_mA s.current_measurements

/-- `get_average_power_consumption_mWh`: average power times the duration in
hours; propagates the TypeError of a missing window bound. -/
def get_average_power_consumption_mWh (s : ProfilerState) : Except PyError ℚ :=
  match get_measurement_duration_s s with
  | Except.ok d => Except.ok (average_power_mW s * (d / 3600))
  | Except.error e => Except.error e

/-- `get_average_charge_mC`: average current times the duration in seconds;
propagates the TypeError of a missing window bound. -/
def get_average_charge_mC (s : ProfilerState) : Except PyError ℚ :=
  match get_measurement_duration_s s with
  | Except.ok d => Except.ok (get_average_current_mA s.current_measurements * d)
  | Except.error e => Except.error e

/-- The object state right after a successful `__init__` with the default
source voltage and no CSV file: the constructor acquires the gate once, the
measuring flag is cleared, the buffer is empty, no timestamps are set, the
device handle is present and the background thread is running. -/
def initState : ProfilerState :=
  { measuring := false
    current_measurements := []
    measurement_start_time := none
    measurement_stop_time := none
    lockCount := 1
    stopFlag := false
    ppk2 := true
    source_voltage_mV := 3300
    filename := false
    measurement_thread := true }

/-- Claim C1: for every sample sequence S, get_average_current_mA returns
(sum(S)/len(S))/1000 when S is non-empty and 0 when S is empty. -/
theorem claim_C1_average_current (S : List ℤ) :
    (S ≠ [] → get_average_current_mA S = ((S.sum : ℚ) / S.length) / 1000) ∧
    (S = [] → get_average_current_mA S = 0) := by
  constructor
  · intro h
    have hlen : S.length ≠ 0 := by
      exact Nat.pos_iff_ne_zero.mp (List.length_pos.mpr h)
    simp [get_average_current_mA, hlen]
  · intro h
    subst h
    simp [get_average_current_mA]

/-- Witness for claim C1 at the concrete buffers [1000, 2000, 3000] and []. -/
theorem claim_C1_average_current_witness :
    get_average_current_mA [1000, 2000, 3000] =
      (((([1000, 2000, 3000] : List ℤ).sum : ℚ)) /
        (([1000, 2000, 3000] : List ℤ).length)) / 1000 ∧
    get_average_current_mA ([] : List ℤ) = 0 :=
  ⟨(claim_C1_average_current [1000, 2000, 3000]).1 (by decide),
   (claim_C1_average_current []).2 rfl⟩

/-- Claim C2: on an empty buffer both extremum queries signal an error
(Python ValueError, modelled as none) and never return a numeric default. -/
theorem claim_C2_empty_extremum_error :
    get_min_current_mA [] = none ∧ get_max_current_mA [] = none := by
  constructor <;> rfl

/-- Closed form of `stop_measuring`: the measuring flag is cleared, the stop
time recorded, and the controller gains one net level on the gate. -/
theorem stop_measuring_eq (s : ProfilerState) (t : ℚ) :
    stop_measuring s t =
      { s with measuring := false
               lockCount := s.lockCount + 1
               measurement_stop_time := some t } := by
  cases hf : s.filename <;>
    simp [stop_measuring, stop_measuring_actions, applyAction, hf]

/-- Closed form of `start_measuring` from a non-measuring state: buffer reset,
measuring flag set, start time recorded, one net gate level released. -/
theorem start_measuring_eq (s : ProfilerState) (t : ℚ) (h : s.measuring = false) :
    start_measuring s t =
      { s with measuring := true
               current_measurements := []
               lockCount := s.lockCount - 1
               measurement_start_time := some t } := by
  simp [start_measuring, start_measuring_actions, applyAction, h]

/-- A loop iteration while the controller holds at least one gate level (or
the stop event is set) leaves the state unchanged. -/
theorem measurement_loop_iter_held (s : ProfilerState) (samples : List ℤ)
    (h : s.lockCount ≠ 0) : measurement_loop_iter s samples = s := by
  unfold measurement_loop_iter
  by_cases hs : s.stopFlag <;> simp [hs, h]

/-- Claim C3: calling start_measuring while already measuring is a no-op on
the whole object state; in particular the buffer is not reset and
measurement_start_time is not overwritten. -/
theorem claim_C3_start_measuring_noop (s : ProfilerState) (t : ℚ)
    (h : s.measuring = true) : start_measuring s t = s := by
  obtain ⟨m, cm, st, sp, lc, sf, pk, sv, fn, mt⟩ := s
  subst h
  simp [start_measuring, start_measuring_actions, applyAction]

/-- A state in the middle of a measurement window: measuring flag set, gate
fully released by the controller. -/
def measuringState : ProfilerState :=
  { initState with measuring := true, lockCount := 0,
                   measurement_start_time := some 5 }

/-- Witness for claim C3 at a concrete measuring state. -/
theorem claim_C3_start_measuring_noop_witness :
    start_measuring measuringState 7 = measuringState :=
  claim_C3_start_measuring_noop measuringState 7 rfl

/-- Claim C6: requesting the duration before both start_time and stop_time
are set raises a TypeError rather than returning a number. -/
theorem claim_C6_duration_error (s : ProfilerState)
    (h : s.measurement_start_time = none ∨ s.measurement_stop_time = none) :
    get_measurement_duration_s s = Except.error PyError.typeError := by
  cases hb : s.measurement_stop_time with
  | none =>
    cases ha : s.measurement_start_time with
    | none => simp [get_measurement_duration_s, hb, ha]
    | some a => simp [get_measurement_duration_s, hb, ha]
  | some b =>
    cases ha : s.measurement_start_time with
    | none => simp [get_measurement_duration_s, hb, ha]
    | some a =>
      rw [ha, hb] at h
      simp at h

/-- Witness for claim C6 at the freshly constructed state, where neither
timestamp is set. -/
theorem claim_C6_duration_error_witness :
    get_measurement_duration_s initState = Except.error PyError.typeError :=
  claim_C6_duration_error initState (Or.inl rfl)

/-- The scenario state of claim C5: buffer [1000, 2000, 3000] microamps,
source voltage 3300 mV, a closed window of duration 2 s. -/
def scenarioState : ProfilerState :=
  { initState with current_measurements := [1000, 2000, 3000],
                   measurement_start_time := some 0,
                   measurement_stop_time := some 2 }

/-- Claim C5: on the scenario state the aggregates are 2 mA average current,
6.6 mW average power, 11/3000 mWh average energy (within 0.000001 of the
quoted 0.003667) and 4 mC average charge. -/
theorem claim_C5_scenario_aggregates :
    get_average_current_mA scenarioState.current_measurements = 2 ∧
    average_power_mW scenarioState = 33 / 5 ∧
    get_average_power_consumption_mWh scenarioState = Except.ok (11 / 3000) ∧
    |(11 / 3000 : ℚ) - 3667 / 1000000| < 1 / 1000000 ∧
    get_average_charge_mC scenarioState = Except.ok 4 := by
  refine ⟨?_, ?_, ?_, ?_, ?_⟩
  · norm_num [scenarioState, initState, get_average_current_mA]
  · norm_num [scenarioState, initState, get_average_current_mA, average_power_mW]
  · norm_num [scenarioState, initState, get_average_current_mA, average_power_mW,
      get_average_power_consumption_mWh, get_measurement_duration_s]
  · have h1 : (11 / 3000 : ℚ) - 3667 / 1000000 = -(1 / 3000000) := by norm_num
    rw [h1, abs_neg, abs_of_pos (by norm_num : (0 : ℚ) < 1 / 3000000)]
    norm_num
  · norm_num [scenarioState, initState, get_average_current_mA,
      get_average_charge_mC, get_measurement_duration_s]

/-- Externally observable effects of a `start_measuring` call, used to state
the effect ordering of claim C4.  `gateReleased` is the instant the gate
becomes available to the background thread, i.e. the controller count
reaches zero. -/
inductive StartEffect
  | reset
  | hwStartSent
  | startTimeRecorded
  | gateReleased
  deriving DecidableEq, Repr

/-- The observable effects, in order, of running a list of atomic actions
from a given state.  A `releaseGate` counts as `gateReleased` exactly when it
brings the controller hold count to zero. -/
def startEffects : ProfilerState → List MicroAction → List StartEffect
  | _, [] => []
  | s, a :: rest =>
    (match a with
     | MicroAction.resetBuffer => [StartEffect.reset]
     | MicroAction.hwStart => [StartEffect.hwStartSent]
     | MicroAction.recordStartTime _ => [StartEffect.startTimeRecorded]
     | MicroAction.releaseGate =>
       if (applyAction s a).lockCount = 0 then [StartEffect.gateReleased] else []
     | _ => []) ++ startEffects (applyAction s a) rest

/-- Counterexample for claim C4 as stated: from the idle state the effects of
start_measuring are NOT buffer reset, then start_time recorded, then the
hardware start command — the source sends the hardware start command before
recording start_time. -/
theorem claim_C4_counterexample :
    startEffects initState (start_measuring_actions initState 5) ≠
      [StartEffect.reset, StartEffect.startTimeRecorded,
       StartEffect.hwStartSent, StartEffect.gateReleased] := by
  decide

/-- Amended claim C4: when start_measuring runs while not measuring with the
controller holding the gate once (the idle state), its effects occur in this
order: the buffer is reset, the hardware start command is sent, start_time is
recorded, and only then is the gate released — the transition to Sampling is
the last step. -/
theorem claim_C4_start_effect_order (s : ProfilerState) (t : ℚ)
    (h1 : s.measuring = false) (h2 : s.lockCount = 1) :
    startEffects s (start_measuring_actions s t) =
      [StartEffect.reset, StartEffect.hwStartSent,
       StartEffect.startTimeRecorded, StartEffect.gateReleased] := by
  simp [start_measuring_actions, startEffects, applyAction, h1, h2]

/-- Witness for the amended claim C4 at the freshly constructed state. -/
theorem claim_C4_start_effect_order_witness :
    startEffects initState (start_measuring_actions initState 9) =
      [StartEffect.reset, StartEffect.hwStartSent,
       StartEffect.startTimeRecorded, StartEffect.gateReleased] :=
  claim_C4_start_effect_order initState 9 rfl rfl

/-- An event of the two-thread system: a controller call to start_measuring
or stop_measuring (with the clock value it reads), or one background loop
iteration appending the decoded samples it read. -/
inductive PEvent
  | start (t : ℚ)
  | stop (t : ℚ)
  | poll (samples : List ℤ)
  deriving DecidableEq, Repr

/-- Tests whether an event is a start_measuring call. -/
def PEvent.isStart : PEvent → Bool
  | PEvent.start _ => true
  | _ => false

/-- Tests whether an event is a background loop iteration. -/
def PEvent.isPoll : PEvent → Bool
  | PEvent.poll _ => true
  | _ => false

/-- Effect of one event on the object state. -/
def stepEvent (s : ProfilerState) : PEvent → ProfilerState
  | PEvent.start t => start_measuring s t
  | PEvent.stop t => stop_measuring s t
  | PEvent.poll xs => measurement_loop_iter s xs

/-- Runs a sequence of events from a state. -/
def runEvents (s : ProfilerState) (es : List PEvent) : ProfilerState :=
  List.foldl stepEvent s es

/-- Splitting a run at an append. -/
theorem runEvents_append (s : ProfilerState) (a b : List PEvent) :
    runEvents s (a ++ b) = runEvents (runEvents s a) b :=
  List.foldl_append _ _ _ _

/-- Invariant: along any trace with no start_measuring call, the controller
keeps at least one gate level and the buffer stays empty. -/
theorem runEvents_no_start (es : List PEvent) (s : ProfilerState)
    (hes : ∀ e ∈ es, PEvent.isStart e = false)
    (h1 : 1 ≤ s.lockCount) (h2 : s.current_measurements = []) :
    1 ≤ (runEvents s es).lockCount ∧
      (runEvents s es).current_measurements = [] := by
  induction es generalizing s with
  | nil => exact ⟨h1, h2⟩
  | cons e rest ih =>
    have he := hes e (List.mem_cons_self e rest)
    have hrest : ∀ x ∈ rest, PEvent.isStart x = false :=
      fun x hx => hes x (List.mem_cons_of_mem e hx)
    cases e with
    | start t => simp [PEvent.isStart] at he
    | stop t =>
      have hstep : runEvents s (PEvent.stop t :: rest) =
          runEvents (stop_measuring s t) rest := rfl
      rw [hstep, stop_measuring_eq]
      exact ih _ hrest (by simp) (by simp [h2])
    | poll xs =>
      have hstep : runEvents s (PEvent.poll xs :: rest) =
          runEvents (measurement_loop_iter s xs) rest := rfl
      rw [hstep, measurement_loop_iter_held s xs (by omega)]
      exact ih _ hrest h1 h2

/-- Claim C7: before the first start_measuring call (any trace of stop calls
and background iterations, but no start), the buffer stays empty and the
controller still holds the gate it acquired at construction. -/
theorem claim_C7_idle_no_append (es : List PEvent)
    (h : ∀ e ∈ es, PEvent.isStart e = false) :
    (runEvents initState es).current_measurements = [] ∧
    1 ≤ (runEvents initState es).lockCount := by
  have hinv := runEvents_no_start es initState h (by decide) rfl
  exact ⟨hinv.2, hinv.1⟩

/-- Witness for claim C7 on a concrete trace of stops and polls. -/
theorem claim_C7_idle_no_append_witness :
    (runEvents initState [PEvent.stop 1, PEvent.poll [5, 7], PEvent.stop 2,
        PEvent.poll [9]]).current_measurements = [] ∧
    1 ≤ (runEvents initState [PEvent.stop 1, PEvent.poll [5, 7], PEvent.stop 2,
        PEvent.poll [9]]).lockCount :=
  claim_C7_idle_no_append
    [PEvent.stop 1, PEvent.poll [5, 7], PEvent.stop 2, PEvent.poll [9]]
    (by decide)

/-- A run consisting only of background iterations is the identity whenever
the controller holds at least one gate level. -/
theorem runEvents_polls (es : List PEvent) (s : ProfilerState)
    (hes : ∀ e ∈ es, PEvent.isPoll e = true) (h : 1 ≤ s.lockCount) :
    runEvents s es = s := by
  induction es with
  | nil => rfl
  | cons e rest ih =>
    have he := hes e (List.mem_cons_self e rest)
    have hrest : ∀ x ∈ rest, PEvent.isPoll x = true :=
      fun x hx => hes x (List.mem_cons_of_mem e hx)
    cases e with
    | start t => simp [PEvent.isPoll] at he
    | stop t => simp [PEvent.isPoll] at he
    | poll xs =>
      have hstep : runEvents s (PEvent.poll xs :: rest) =
          runEvents (measurement_loop_iter s xs) rest := rfl
      rw [hstep, measurement_loop_iter_held s xs (by omega)]
      exact ih hrest

/-- Running a list of stop_measuring calls from a non-measuring state: the
controller gains one gate level per call and the flag stays cleared. -/
theorem runEvents_stops (ts : List ℚ) (s : ProfilerState) (h : s.measuring = false) :
    (runEvents s (ts.map PEvent.stop)).lockCount = s.lockCount + ts.length ∧
    (runEvents s (ts.map PEvent.stop)).measuring = false := by
  induction ts generalizing s with
  | nil => exact ⟨by simp [runEvents], h⟩
  | cons t rest ih =>
    have hstep : runEvents s ((t :: rest).map PEvent.stop) =
        runEvents (stop_measuring s t) (rest.map PEvent.stop) := rfl
    rw [hstep, stop_measuring_eq]
    have hrec := ih { s with measuring := false, lockCount := s.lockCount + 1,
                             measurement_stop_time := some t } rfl
    refine ⟨?_, hrec.2⟩
    rw [hrec.1]
    simp
    omega

/-- Claim C10: every stop_measuring call adds one net gate level, and after
two (or more) consecutive stops a single start_measuring releases only one
level, so the gate stays held and no background iteration can ever append a
sample for that window — the buffer stays empty. -/
theorem claim_C10_stop_stacking :
    (∀ (s : ProfilerState) (t : ℚ),
      (stop_measuring s t).lockCount = s.lockCount + 1) ∧
    (∀ (ts : List ℚ) (t : ℚ) (polls : List PEvent), 2 ≤ ts.length →
      (∀ e ∈ polls, PEvent.isPoll e = true) →
      (runEvents initState
          (ts.map PEvent.stop ++ PEvent.start t :: polls)).current_measurements
        = [] ∧
      1 ≤ (runEvents initState
          (ts.map PEvent.stop ++ PEvent.start t :: polls)).lockCount) := by
  constructor
  · intro s t
    rw [stop_measuring_eq]
  · intro ts t polls hlen hpolls
    have hstops := runEvents_stops ts initState rfl
    have hsplit : runEvents initState (ts.map PEvent.stop ++ PEvent.start t :: polls)
        = runEvents (start_measuring (runEvents initState (ts.map PEvent.stop)) t)
            polls := by
      rw [runEvents_append]
      rfl
    rw [hsplit, start_measuring_eq _ _ hstops.2]
    have hcount : (runEvents initState (ts.map PEvent.stop)).lockCount - 1
        = ts.length := by
      rw [hstops.1]
      simp [initState]
    rw [runEvents_polls polls _ hpolls (by simp [hcount]; omega)]
    refine ⟨rfl, by simp [hcount]; omega⟩

/-- Witness for claim C10: two stops, one start, one poll. -/
theorem claim_C10_stop_stacking_witness :
    (stop_measuring initState 1).lockCount = initState.lockCount + 1 ∧
    ((runEvents initState ([2, 3].map PEvent.stop ++ PEvent.start 4 ::
        [PEvent.poll [5]])).current_measurements = [] ∧
     1 ≤ (runEvents initState ([2, 3].map PEvent.stop ++ PEvent.start 4 ::
        [PEvent.poll [5]])).lockCount) :=
  ⟨claim_C10_stop_stacking.1 initState 1,
   claim_C10_stop_stacking.2 [2, 3] 4 [PEvent.poll [5]] (by decide) (by decide)⟩

/-- Outcome of the construction-time verification read
`ret = self.ppk2.get_modifiers()`: the call can raise, return a falsy value,
or succeed with a truthy value. -/
inductive VerifyResult
  | raises
  | falsy
  | ok
  deriving DecidableEq, Repr

/-- `discover_port`: returns the single connected device when exactly one is
listed.  For zero or several devices the source calls the module-level
`logger` object as a function, which raises TypeError (a Logger is not
callable); the `return None` after it is unreachable. -/
def discover_port (devices : List String) : Except PyError (Option String) :=
  if devices.length = 1 then Except.ok devices.head?
  else Except.error PyError.typeError

/-- `__init__`: resolve a handle from the explicit port or from discovery,
read the modifiers to verify the connection (an AttributeError if no handle
was resolved, a re-raised driver error if the read raises, an Exception if it
returns a falsy value), then configure the meter and return the initial
object state.  Driver-side configuration (meter mode, voltage command) has no
object-state counterpart beyond the stored source_voltage_mV. -/
def construct (serial_port : Option String) (devices : List String)
    (verify : VerifyResult) (source_voltage_mV : ℚ) (filename : Bool) :
    Except PyError ProfilerState :=
  match (match serial_port with
         | some _ => Except.ok true
         | none =>
           match discover_port devices with
           | Except.ok p => Except.ok p.isSome
           | Except.error e => Except.error e) with
  | Except.error e => Except.error e
  | Except.ok hasHandle =>
    if hasHandle then
      match verify with
      | VerifyResult.raises => Except.error PyError.driverError
      | VerifyResult.falsy => Except.error PyError.initError
      | VerifyResult.ok =>
        Except.ok { measuring := false
                    current_measurements := []
                    measurement_start_time := none
                    measurement_stop_time := none
                    lockCount := 1
                    stopFlag := false
                    ppk2 := true
                    source_voltage_mV := source_voltage_mV
                    filename := filename
                    measurement_thread := true }
    else Except.error PyError.attributeError

/-- Claim C9: construction signals an error — no usable instance — whenever
verification fails (the modifiers read raises or returns a falsy value) or
auto-discovery is used and finds zero or more than one candidate device. -/
theorem claim_C9_construction_fails (sp : Option String) (devices : List String)
    (verify : VerifyResult) (v : ℚ) (fn : Bool)
    (h : verify ≠ VerifyResult.ok ∨ (sp = none ∧ devices.length ≠ 1)) :
    (construct sp devices verify v fn).isOk = false := by
  rcases h with hv | ⟨hsp, hd⟩
  · cases sp with
    | some p =>
      cases verify with
      | raises => rfl
      | falsy => rfl
      | ok => exact absurd rfl hv
    | none =>
      by_cases hlen : devices.length = 1
      · obtain ⟨d, rfl⟩ := List.length_eq_one.mp hlen
        cases verify with
        | raises => rfl
        | falsy => rfl
        | ok => exact absurd rfl hv
      · simp [construct, discover_port, hlen, Except.isOk, Except.toBool]
  · subst hsp
    simp [construct, discover_port, hd, Except.isOk, Except.toBool]

/-- Witness for claim C9: auto-discovery with no connected device. -/
theorem claim_C9_construction_fails_witness :
    (construct none [] VerifyResult.ok 3300 false).isOk = false :=
  claim_C9_construction_fails none [] VerifyResult.ok 3300 false
    (Or.inr ⟨rfl, by decide⟩)

/-- `stop_measuring` as teardown reaches it: the method dereferences
`self.ppk2` unconditionally (`self.ppk2.stop_measuring()`), so when the
attribute was removed by a previous teardown the call raises AttributeError;
otherwise it performs the ordinary stop. -/
def stop_measuring_checked (s : ProfilerState) (t : ℚ) :
    Except PyError ProfilerState :=
  if s.ppk2 then Except.ok (stop_measuring s t)
  else Except.error PyError.attributeError

/-- `delete_power_profiler`: set the stop event, call stop_measuring, join
the thread and clear the thread attribute, then disable power and execute
`del self.ppk2` (modelled as clearing the handle flag) when the handle is
present.  An exception inside stop_measuring propagates out of teardown. -/
def delete_power_profiler (s : ProfilerState) (t : ℚ) :
    Except PyError ProfilerState :=
  match stop_measuring_checked { s with stopFlag := true } t with
  | Except.error e => Except.error e
  | Except.ok s2 =>
    let s3 := if s2.measurement_thread then
        { s2 with measurement_thread := false } else s2
    Except.ok (if s3.ppk2 then { s3 with ppk2 := false } else s3)

/-- Claim C8 evaluated on the code: the first teardown succeeds and releases
the device handle, but the second teardown raises AttributeError because
`del self.ppk2` removed the attribute that stop_measuring dereferences — so
teardown is not idempotent and not non-throwing as the claim states. -/
theorem claim_C8_second_teardown_raises :
    (delete_power_profiler initState 1).isOk = true ∧
    Except.map (fun s => s.ppk2) (delete_power_profiler initState 1) =
      Except.ok false ∧
    Except.bind (delete_power_profiler initState 1)
        (fun s1 => delete_power_profiler s1 2) =
      Except.error PyError.attributeError := by
  refine ⟨rfl, rfl, rfl⟩

end PowerProfiler
